import Mathlib

/-!
Verification of the real-time tutoring chat gateway of the ai-tutor
repository.  Code present in the repository (`src/lib/gemini.ts`,
`src/lib/db.ts`, `src/lib/validation.ts`, the socket auth helpers and the
`ChatInterface` client component) is embedded directly; the socket server
itself (Chat Gateway / Connection Session / Chunk Streamer) is not part of
the repository sources, so those parts are modelled from the specification
and are marked as such in their doc comments.
-/

namespace AiTutor

/-! ## Chunk splitting (Chunk Streamer)

Modelled from the spec: the Chunk Streamer splits a completed text with a
deterministic, concatenation-preserving policy; we use fixed-size chunks of
50 characters. -/

/-- Modelled from the spec: fixed-size splitting of a character list into
chunks of at most 50 characters.  Deterministic by construction. -/
def chunkChars : List Char → List (List Char)
  | [] => []
  | c :: rest => (c :: List.take 49 rest) :: chunkChars (List.drop 49 rest)
termination_by l => l.length
decreasing_by simp [List.length_drop]; omega

/-- Modelled from the spec: `splitIntoChunks(text) → ordered sequence of string`. -/
def splitIntoChunks (text : String) : List String :=
  (chunkChars text.data).map (fun cs => String.mk cs)

/-- Concatenation of a list of strings in order. -/
def concatChunks : List String → String
  | [] => ""
  | s :: rest => s ++ concatChunks rest

/-! ## Credential Verifier (embedded from `src/unnamed/part_001`)

`jwt.verify` is modelled by its outcome: either it throws (`.error`) or
returns a decoded payload.  JavaScript truthiness of `decoded.userId` and
`decoded.email` is modelled faithfully: the number `0` and the empty string
are falsy. -/

structure JwtPayload where
  userId : Option Int
  email : Option String
  name : Option String
deriving DecidableEq

structure AuthUser where
  id : Int
  email : String
  name : Option String
deriving DecidableEq

/-- JS truthiness of an optional number (`undefined` and `0` are falsy). -/
def truthyNum : Option Int → Bool
  | none => false
  | some n => n != 0

/-- JS truthiness of an optional string (`undefined` and `""` are falsy). -/
def truthyStr : Option String → Bool
  | none => false
  | some s => s != ""

/-- Embedded from `verifyToken` in `src/unnamed/part_001` (lines 106-133):
returns `none` when `JWT_SECRET` is unset, when `jwt.verify` throws, or when
the decoded payload lacks a truthy `userId` or `email`; otherwise the
identity.  The surrounding `try/catch` resolves every exception to `null`,
so the function is total. -/
def verifyToken (jwtSecret : Option String) (verifyOutcome : Except String JwtPayload) :
    Option AuthUser :=
  match jwtSecret with
  | none => none
  | some _ =>
    match verifyOutcome with
    | .error _ => none
    | .ok decoded =>
      if truthyNum decoded.userId && truthyStr decoded.email then
        match decoded.userId, decoded.email with
        | some uid, some em => some ⟨uid, em, decoded.name⟩
        | _, _ => none
      else
        none

/-- Embedded from `authenticateSocket` in `src/unnamed/part_001`
(lines 197-220): `verifyToken`, then a `users` table lookup by id; any
failure resolves to `null`.  The database lookup is modelled as a function
from user id to an optional row. -/
def authenticateSocket (jwtSecret : Option String)
    (verifyOutcome : Except String JwtPayload)
    (dbLookup : Int → Option AuthUser) : Option AuthUser :=
  match verifyToken jwtSecret verifyOutcome with
  | none => none
  | some user => dbLookup user.id

/-! ## Response Generator (embedded from `src/lib/gemini.ts`) -/

structure HistMsg where
  role : String
  content : String
deriving DecidableEq

/-- JavaScript `array.slice(-n)`: the last `n` elements (all of them when
the array is shorter). -/
def jsSliceNeg (l : List HistMsg) (n : Nat) : List HistMsg :=
  l.drop (l.length - n)

/-- Embedded from `generateTutorResponse` in `src/lib/gemini.ts` (line 222):
`chatHistory.slice(-10)` — the history window handed to the model. -/
def historyWindow (chatHistory : List HistMsg) : List HistMsg :=
  jsSliceNeg chatHistory 10

/-- Embedded from `src/lib/gemini.ts` (lines 222-224): each windowed message
rendered as `User: ...` or `Assistant: ...`. -/
def formatMsg (m : HistMsg) : String :=
  (if m.role = "user" then "User" else "Assistant") ++ ": " ++ m.content

/-- Embedded from `src/lib/gemini.ts` (lines 222-224): the
`conversationHistory` lines included in the prompt. -/
def conversationHistory (chatHistory : List HistMsg) : List String :=
  (historyWindow chatHistory).map formatMsg

/-- Embedded from `src/lib/gemini.ts` (lines 199-231): the system prompt
with the goal context and the optional current milestone line. -/
def systemPrompt (goalContext : String) (currentMilestone : Option String) : String :=
  "You are an AI tutor helping a student achieve their learning goal: \x22" ++
    goalContext ++ "\x22\n\n" ++
  (match currentMilestone with
   | some m => "Current milestone: " ++ m
   | none => "") ++
  "\n\nYour role:\n- Provide encouraging, supportive guidance"

/-- Embedded from `src/lib/gemini.ts` (lines 226-231): the full prompt sent
to the model. -/
def buildTutorPrompt (userMessage goalContext : String) (chatHistory : List HistMsg)
    (currentMilestone : Option String) : String :=
  systemPrompt goalContext currentMilestone ++
  "\n\nPrevious conversation:\n" ++
  String.intercalate "\n" (conversationHistory chatHistory) ++
  "\n\nUser: " ++ userMessage

/-- Embedded from `generateTutorResponse` in `src/lib/gemini.ts`
(lines 189-245): throws when the API key is missing; wraps the model call;
an empty model response raises inside the `try`, and every error inside the
`try` is rethrown as `Failed to generate tutor response`.  The model call is
abstracted as a function from the prompt to a result. -/
def generateTutorResponse (apiKey : Option String)
    (userMessage goalContext : String) (chatHistory : List HistMsg)
    (currentMilestone : Option String)
    (callModel : String → Except String String) : Except String String :=
  match apiKey with
  | none => .error "Gemini API key is not configured"
  | some _ =>
    match callModel (buildTutorPrompt userMessage goalContext chatHistory currentMilestone) with
    | .error _ => .error "Failed to generate tutor response"
    | .ok content =>
      if content = "" then .error "Failed to generate tutor response"
      else .ok content

/-! ## History Store queries (embedded from `src/lib/db.ts` and the SQL
schema scripts) -/

/-- Column list of the `INSERT` statement in `chatQueries.createMessage`,
`src/lib/db.ts` lines 222-237. -/
def createMessageInsertColumns : List String :=
  ["user_id", "goal_id", "milestone_id", "session_id", "role", "content", "context_data"]

/-- Column list of the `chat_messages` table created by
`src/scripts/chat-messages-table.sql` (lines 7-16). -/
def chatMessagesTableColumns : List String :=
  ["id", "user_id", "goal_id", "message", "sender", "timestamp", "created_at", "updated_at"]

/-- A PostgreSQL `INSERT` naming a column that does not exist in the target
table fails; otherwise the row is appended. -/
def insertAccepted (insertCols tableCols : List String) : Bool :=
  insertCols.all (fun c => tableCols.contains c)

/-- Execution model of an `INSERT`: on a column mismatch the statement
errors and the table is unchanged. -/
def execInsert (tableCols : List String) (rows : List (List String))
    (insertCols : List String) (vals : List String) :
    Except String (List (List String)) :=
  if insertAccepted insertCols tableCols then .ok (rows ++ [vals])
  else .error "column does not exist"

/-- A row of the `chat_messages` table as created by
`src/scripts/init-neon-db.sql` (the shape `chatQueries` addresses). -/
structure DbRow where
  id : Nat
  user_id : Int
  session_id : String
  role : String
  content : String
  created_at : Nat
deriving DecidableEq

/-- Embedded from `chatQueries.findBySessionId` in `src/lib/db.ts`
(lines 207-211): `SELECT * FROM chat_messages WHERE session_id = $1 ORDER BY
created_at ASC`.  Filtering then sorting by `created_at` ascending models
the query semantics. -/
def findBySessionId (table : List DbRow) (sid : String) : List DbRow :=
  (table.filter (fun r => r.session_id == sid)).mergeSort
    (fun a b => Nat.ble a.created_at b.created_at)

/-- Modelled from the spec: the `hasMore` flag of a `chat_history` response —
true iff more than `limit` rows exist beyond `offset`.  The socket server
computing it is not part of the repository sources. -/
def hasMoreFlag (rows : List DbRow) (limit offset : Nat) : Bool :=
  decide (offset + limit < rows.length)

/-! ## `get_chat_history` validation (embedded from `src/lib/validation.ts`) -/

structure GetHistParams where
  goalId : Int
  limit : Int
  offset : Int
deriving DecidableEq

/-- Embedded from `getChatHistorySchema` in `src/lib/validation.ts`
(lines 79-83): `goalId` is a required positive integer; `limit` is an
optional integer in `[1, 100]` defaulting to `20`; `offset` is an optional
non-negative integer defaulting to `0`.  `none` models a `ZodError`. -/
def parseGetChatHistory (goalId limit offset : Option Int) : Option GetHistParams :=
  match goalId with
  | none => none
  | some g =>
    if g ≤ 0 then none
    else
      match limit with
      | none =>
        match offset with
        | none => some ⟨g, 20, 0⟩
        | some o => if o < 0 then none else some ⟨g, 20, o⟩
      | some l =>
        if l < 1 ∨ 100 < l then none
        else
          match offset with
          | none => some ⟨g, l, 0⟩
          | some o => if o < 0 then none else some ⟨g, l, o⟩

/-! ## Connection Session state machine

Modelled from the spec (§4.2, §4.3, §5): the socket server owning the
`READY`/`GENERATING` state machine and the Chunk Streamer is not part of the
repository sources.  Per §9 the policy for a `chat_message` arriving while
`GENERATING` must be deterministic; the reject-with-error policy is chosen.
The `rid` field is a ghost response counter used to state the
non-interleaving guarantee. -/

inductive Phase where
  | ready
  | generating
deriving DecidableEq

structure SState where
  phase : Phase
  started : Bool
  pending : List String
  gen : String
  rid : Nat
  userLog : List String
  aiLog : List String
deriving DecidableEq

/-- Initial state of a Connection Session after successful authentication. -/
def initState : SState := ⟨.ready, false, [], "", 0, [], []⟩

inductive SIn where
  | userMsg (text : String)
  | genOk (text : String)
  | genErr (msg : String)
  | tick
  | histReq (goalId limit offset : Option Int)
  | typingIn (b : Bool)
deriving DecidableEq

inductive SOut where
  | echo (text : String)
  | aiTyping (b : Bool)
  | chunk (content : String) (isComplete : Bool) (rid : Nat)
  | errorEv (msg : String)
  | history (msgs : List DbRow) (hasMore : Bool)
deriving DecidableEq

/-- Modelled from the spec (§4.2, §4.3): one event-loop step of a Connection
Session.  `userMsg` in `READY` persists the user message, echoes it and
enters `GENERATING`; in `GENERATING` it is rejected with an error.  `genOk`
starts the Chunk Streamer (`ai_typing(true)`, chunks queued); each `tick`
emits the next chunk, and the final tick emits the completion chunk,
`ai_typing(false)` and persists the full text.  `genErr` emits one error,
stops the typing indicator if it was started, and returns to `READY` without
persisting.  `histReq` is read-only and returns up to `limit` of the
session's ordered rows beyond `offset`, plus the `hasMore` flag computed
over the session's rows; `typing` is accepted without effect. -/
def step (db : List DbRow) (sid : String) (s : SState) : SIn → SState × List SOut
  | .userMsg t =>
    match s.phase with
    | .ready =>
      ({ s with phase := .generating, started := false, pending := [], gen := "",
                rid := s.rid + 1, userLog := s.userLog ++ [t] }, [.echo t])
    | .generating => (s, [.errorEv "A response is already being generated"])
  | .genOk g =>
    match s.phase with
    | .generating =>
      if s.started then (s, [])
      else ({ s with started := true, pending := splitIntoChunks g, gen := g },
            [.aiTyping true])
    | .ready => (s, [])
  | .genErr m =>
    match s.phase with
    | .generating =>
      ({ s with phase := .ready, started := false, pending := [], gen := "" },
       [.errorEv m] ++ (if s.started then [.aiTyping false] else []))
    | .ready => (s, [])
  | .tick =>
    match s.phase with
    | .generating =>
      if s.started then
        match s.pending with
        | c :: rest => ({ s with pending := rest }, [.chunk c false s.rid])
        | [] =>
          ({ s with phase := .ready, started := false, gen := "",
                    aiLog := s.aiLog ++ [s.gen] },
           [.chunk "" true s.rid, .aiTyping false])
      else (s, [])
    | .ready => (s, [])
  | .histReq g l o =>
    match parseGetChatHistory g l o with
    | some p =>
      (s, [.history (((findBySessionId db sid).drop p.offset.toNat).take p.limit.toNat)
            (hasMoreFlag (findBySessionId db sid) p.limit.toNat p.offset.toNat)])
    | none => (s, [.errorEv "Invalid request"])
  | .typingIn _ => (s, [])

/-- Run the session over a list of inbound events, accumulating outputs. -/
def run (db : List DbRow) (sid : String) (s : SState) : List SIn → SState × List SOut
  | [] => (s, [])
  | i :: l =>
    let p := step db sid s i
    let q := run db sid p.1 l
    (q.1, p.2 ++ q.2)

/-- Ghost response ids of the chunk events in an output trace. -/
def chunkRids (outs : List SOut) : List Nat :=
  outs.filterMap (fun o =>
    match o with
    | .chunk _ _ r => some r
    | _ => none)

/-- The canonical inbound schedule of one completed generation: the user
message, the generator result, one tick per chunk and the final tick. -/
def script (t g : String) : List SIn :=
  [.userMsg t, .genOk g] ++ List.replicate (splitIntoChunks g).length .tick ++ [.tick]

/-- The outbound event sequence of one completed generation. -/
def canonicalOutput (t g : String) : List SOut :=
  [.echo t, .aiTyping true] ++
  (splitIntoChunks g).map (fun c => .chunk c false 1) ++
  [.chunk "" true 1, .aiTyping false]

/-- Count of `error` events in an output trace. -/
def countErrors (outs : List SOut) : Nat :=
  outs.countP (fun o =>
    match o with
    | .errorEv _ => true
    | _ => false)

/-! ## Chat Gateway connection establishment

Modelled from the spec (§4.1): on successful authentication a Connection
Session in `READY` is created and registered; on failure one `Unauthorized`
error event is emitted and the connection is closed with no session. -/

inductive ConnResult where
  | ready (sess : SState) (user : AuthUser)
  | closed (events : List SOut)
deriving DecidableEq

/-- Modelled from the spec (§4.1): `onConnect` keyed by the outcome of
`authenticateSocket`. -/
def onConnect (authRes : Option AuthUser) : ConnResult :=
  match authRes with
  | some u => .ready initState u
  | none => .closed [.errorEv "Unauthorized"]

/-- A closed connection has no session, so it accepts no messages. -/
def acceptsMessages : ConnResult → Bool
  | .ready _ _ => true
  | .closed _ => false

/-- Messages persisted on behalf of a connection: the session logs, or
nothing for a closed connection. -/
def persistedOf : ConnResult → List String × List String
  | .ready s _ => (s.userLog, s.aiLog)
  | .closed _ => ([], [])

/-- Error events observable to the client of a closed connection. -/
def closedEvents : ConnResult → List SOut
  | .ready _ _ => []
  | .closed evs => evs

/-! ## Client-side reassembly (embedded from `src/unnamed/part_004`) -/

inductive Sender where
  | user
  | ai
deriving DecidableEq

structure CMsg where
  id : String
  message : String
  sender : Sender
  timestamp : String
  goalId : Option Int
deriving DecidableEq

/-- Embedded from the `ai_message_chunk` handler in `src/unnamed/part_004`
(lines 136-189).  For an incomplete chunk: append to the trailing streaming
AI message, or start a new one (`id = "streaming"`).  For the complete
chunk: finalize the trailing streaming message, appending the final content
and replacing the id; with no streaming message the state is unchanged.
`now` and `finalId` stand for `new Date().toISOString()` and
`Date.now().toString()`. -/
def clientChunk (goalId : Option Int) (now finalId : String)
    (prev : List CMsg) (content : String) (isComplete : Bool) : List CMsg :=
  if !isComplete then
    match prev.getLast? with
    | some lastMessage =>
      if lastMessage.sender = .ai ∧ lastMessage.id = "streaming" then
        prev.dropLast ++ [{ lastMessage with message := lastMessage.message ++ content }]
      else
        prev ++ [⟨"streaming", content, .ai, now, goalId⟩]
    | none => prev ++ [⟨"streaming", content, .ai, now, goalId⟩]
  else
    match prev.getLast? with
    | some lastMessage =>
      if lastMessage.id = "streaming" then
        prev.dropLast ++
          [{ lastMessage with id := finalId, message := lastMessage.message ++ content }]
      else prev
    | none => prev

/-- Process a sequence of `(content, isComplete)` chunk events in order. -/
def clientRun (goalId : Option Int) (now finalId : String)
    (prev : List CMsg) (chunks : List (String × Bool)) : List CMsg :=
  chunks.foldl (fun ms c => clientChunk goalId now finalId ms c.1 c.2) prev

/-- The chunk events emitted for one completed generation, as seen by the
client: every split chunk with `isComplete:false`, then the final empty
complete chunk. -/
def chunkEvents (g : String) : List (String × Bool) :=
  (splitIntoChunks g).map (fun c => (c, false)) ++ [("", true)]

/-- The client state has no trailing streaming AI message, so the next
incomplete chunk starts a new streaming message. -/
def noTrailingStream (msgs : List CMsg) : Bool :=
  match msgs.getLast? with
  | none => true
  | some m => !(m.sender == .ai && m.id == "streaming")

/-- Recognizes an `ai_typing(true)` event. -/
def isTypingOn : SOut → Bool
  | .aiTyping true => true
  | _ => false

/-- Recognizes the completion chunk (`isComplete:true`). -/
def isCompleteChunk : SOut → Bool
  | .chunk _ true _ => true
  | _ => false

/-- Recognizes a streamed chunk with `isComplete:false`. -/
def isIncompleteChunk : SOut → Bool
  | .chunk _ false _ => true
  | _ => false

/-! # Theorems -/

/-! ## Helper lemmas about chunk splitting -/

theorem chunkChars_join (l : List Char) : (chunkChars l).flatten = l := by
  induction l using chunkChars.induct with
  | case1 => simp [chunkChars]
  | case2 c rest ih =>
    rw [chunkChars]
    simp only [List.flatten_cons, ih, List.cons_append]
    rw [List.take_append_drop]

theorem concatChunks_map_mk (ls : List (List Char)) :
    concatChunks (ls.map (fun cs => String.mk cs)) = String.mk ls.flatten := by
  induction ls with
  | nil => rfl
  | cons c rest ih =>
    simp only [List.map_cons, concatChunks, ih, List.flatten_cons]
    apply String.ext
    simp

theorem splitIntoChunks_concat (t : String) : concatChunks (splitIntoChunks t) = t := by
  rw [splitIntoChunks, concatChunks_map_mk, chunkChars_join]

theorem data_ne_nil_of_ne_empty {t : String} (h : t ≠ "") : t.data ≠ [] := by
  intro hd
  apply h
  apply String.ext
  simpa using hd

theorem splitIntoChunks_length_pos {t : String} (h : t ≠ "") :
    1 ≤ (splitIntoChunks t).length := by
  have hd := data_ne_nil_of_ne_empty h
  rw [splitIntoChunks]
  match hm : t.data with
  | [] => exact absurd hm hd
  | c :: rest => rw [chunkChars]; simp

/-! ## Claim C6 -/

/-- Claim C6: `chatQueries.createMessage` inserts into columns `session_id`,
`role`, `content` and `context_data`, none of which exist in the
`chat_messages` table created by `src/scripts/chat-messages-table.sql`
(whose payload columns are `message`, `sender` and `timestamp`); hence every
such insert fails with a database error and writes no row. -/
theorem C6_createMessage_column_mismatch :
    (["session_id", "role", "content", "context_data"].all
      (fun c => createMessageInsertColumns.contains c &&
                !(chatMessagesTableColumns.contains c))) = true ∧
    insertAccepted createMessageInsertColumns chatMessagesTableColumns = false ∧
    ∀ (rows : List (List String)) (vals : List String),
      execInsert chatMessagesTableColumns rows createMessageInsertColumns vals =
        .error "column does not exist" := by
  have h : insertAccepted createMessageInsertColumns chatMessagesTableColumns = false := by
    decide
  refine ⟨by decide, h, ?_⟩
  intro rows vals
  simp [execInsert, h]

/-! ## Claim C7 -/

/-- Claim C7: `verifyToken` is total — it returns an identity or `null` and
never throws; it returns `null` when the JWT secret is not configured, when
`jwt.verify` throws, and when the decoded payload lacks a (truthy) `userId`
or `email`; for a truthy payload it returns the identity. -/
theorem C7_verifyToken_total :
    (∀ outcome, verifyToken none outcome = none) ∧
    (∀ s e, verifyToken (some s) (.error e) = none) ∧
    (∀ s d, d.userId = none ∨ d.email = none →
      verifyToken (some s) (.ok d) = none) ∧
    (∀ s d, (truthyNum d.userId && truthyStr d.email) = false →
      verifyToken (some s) (.ok d) = none) ∧
    (∀ s d, (truthyNum d.userId && truthyStr d.email) = true →
      ∃ u, verifyToken (some s) (.ok d) = some u) := by
  refine ⟨fun _ => rfl, fun _ _ => rfl, ?_, ?_, ?_⟩
  · intro s d h
    have hf : (truthyNum d.userId && truthyStr d.email) = false := by
      rcases h with h | h <;> simp [h, truthyNum, truthyStr]
    simp [verifyToken, hf]
  · intro s d h
    simp [verifyToken, h]
  · intro s d h
    rw [Bool.and_eq_true] at h
    obtain ⟨hu, he⟩ := h
    match hud : d.userId, hed : d.email with
    | none, _ => rw [hud] at hu; simp [truthyNum] at hu
    | some uid, none => rw [hed] at he; simp [truthyStr] at he
    | some uid, some em =>
      refine ⟨⟨uid, em, d.name⟩, ?_⟩
      rw [hud] at hu
      rw [hed] at he
      simp [verifyToken, hud, hed, hu, he]

/-- Witness for C7 at concrete inputs. -/
theorem C7_verifyToken_total_witness :
    verifyToken none (.ok ⟨some 1, some "a@b.c", none⟩) = none ∧
    verifyToken (some "secret") (.error "invalid signature") = none ∧
    verifyToken (some "secret") (.ok ⟨none, some "a@b.c", none⟩) = none ∧
    verifyToken (some "secret") (.ok ⟨some 0, some "a@b.c", none⟩) = none ∧
    ∃ u, verifyToken (some "secret") (.ok ⟨some 1, some "a@b.c", none⟩) = some u := by
  refine ⟨C7_verifyToken_total.1 _, C7_verifyToken_total.2.1 _ _,
    C7_verifyToken_total.2.2.1 _ _ (Or.inl rfl),
    C7_verifyToken_total.2.2.2.1 _ _ (by decide),
    C7_verifyToken_total.2.2.2.2 _ _ (by decide)⟩

/-! ## Claim C10 -/

/-- Claim C10: the history window in the tutor prompt consists of at most
the last 10 messages of the conversation context, taken in their original
order (it is a suffix of the history, and equals the whole history when that
is short). -/
theorem C10_history_window (hist : List HistMsg) :
    conversationHistory hist = (historyWindow hist).map formatMsg ∧
    (historyWindow hist).length ≤ 10 ∧
    historyWindow hist <:+ hist ∧
    (hist.length ≤ 10 → historyWindow hist = hist) := by
  refine ⟨rfl, ?_, List.drop_suffix _ _, ?_⟩
  · simp only [historyWindow, jsSliceNeg, List.length_drop]
    omega
  · intro h
    simp only [historyWindow, jsSliceNeg]
    have : hist.length - 10 = 0 := by omega
    rw [this, List.drop_zero]

/-- Witness for C10 at a concrete short history. -/
theorem C10_history_window_witness :
    historyWindow [⟨"user", "hi"⟩, ⟨"assistant", "hello"⟩] =
      [⟨"user", "hi"⟩, ⟨"assistant", "hello"⟩] :=
  (C10_history_window [⟨"user", "hi"⟩, ⟨"assistant", "hello"⟩]).2.2.2 (by decide)

/-! ## Claim C8 (corrected) -/

/-- Claim C8 counterexample: `goalId` may NOT be omitted.  The exact request
the client sends on connect (`{goalId: null, limit: 50}`,
`src/unnamed/part_004` lines 98-101) fails `getChatHistorySchema`
validation, so the request is rejected with an error instead of being
served. -/
theorem C8_goalId_required_counterexample :
    parseGetChatHistory none (some 50) none = none ∧
    step [] "sess" initState (.histReq none (some 50) none) =
      (initState, [.errorEv "Invalid request"]) :=
  ⟨rfl, rfl⟩

/-- Claim C8 (amended): for every `get_chat_history` request accepted by
`getChatHistorySchema`, at most `limit` messages are returned, where the
effective limit lies in 1..100 (defaulting to 20 when absent), the offset is
never negative (defaulting to 0), and `goalId` is required and positive;
handling the request never changes the connection's state, and the returned
messages are the session's ordered rows beyond `offset`, truncated to
`limit`, with `hasMore` computed over the session's rows. -/
theorem C8_history_limit_bounds :
    (∀ g l o r, parseGetChatHistory g l o = some r →
      1 ≤ r.limit ∧ r.limit ≤ 100 ∧ (l = none → r.limit = 20) ∧
      0 ≤ r.offset ∧ (o = none → r.offset = 0) ∧ 0 < r.goalId) ∧
    (∀ db sid s gi li oi, (step db sid s (.histReq gi li oi)).1 = s) ∧
    (∀ db sid s gi li oi p, parseGetChatHistory gi li oi = some p →
      step db sid s (.histReq gi li oi) =
        (s, [.history (((findBySessionId db sid).drop p.offset.toNat).take p.limit.toNat)
              (hasMoreFlag (findBySessionId db sid) p.limit.toNat p.offset.toNat)]) ∧
      (((findBySessionId db sid).drop p.offset.toNat).take p.limit.toNat).length ≤
        p.limit.toNat) := by
  refine ⟨?_, ?_, ?_⟩
  · intro g l o r h
    match g, l, o with
    | none, _, _ => simp [parseGetChatHistory] at h
    | some gv, none, none =>
      simp only [parseGetChatHistory] at h
      split at h
      · exact absurd h (by simp)
      · rename_i hg
        rw [Option.some.injEq] at h
        subst h
        exact ⟨by show (1:Int) ≤ 20; decide, by show (20:Int) ≤ 100; decide,
          fun _ => rfl, by show (0:Int) ≤ 0; decide, fun _ => rfl,
          by show (0:Int) < gv; omega⟩
    | some gv, none, some ov =>
      simp only [parseGetChatHistory] at h
      split at h
      · exact absurd h (by simp)
      · rename_i hg
        split at h
        · exact absurd h (by simp)
        · rename_i ho
          rw [Option.some.injEq] at h
          subst h
          exact ⟨by show (1:Int) ≤ 20; decide, by show (20:Int) ≤ 100; decide,
            fun _ => rfl, by show (0:Int) ≤ ov; omega,
            fun hc => absurd hc (Option.some_ne_none _),
            by show (0:Int) < gv; omega⟩
    | some gv, some lv, none =>
      simp only [parseGetChatHistory] at h
      split at h
      · exact absurd h (by simp)
      · rename_i hg
        split at h
        · exact absurd h (by simp)
        · rename_i hl
          rw [Option.some.injEq] at h
          subst h
          rw [not_or] at hl
          exact ⟨by show (1:Int) ≤ lv; omega, by show lv ≤ (100:Int); omega,
            fun hc => absurd hc (Option.some_ne_none _),
            by show (0:Int) ≤ 0; decide, fun _ => rfl,
            by show (0:Int) < gv; omega⟩
    | some gv, some lv, some ov =>
      simp only [parseGetChatHistory] at h
      split at h
      · exact absurd h (by simp)
      · rename_i hg
        split at h
        · exact absurd h (by simp)
        · rename_i hl
          split at h
          · exact absurd h (by simp)
          · rename_i ho
            rw [Option.some.injEq] at h
            subst h
            rw [not_or] at hl
            exact ⟨by show (1:Int) ≤ lv; omega, by show lv ≤ (100:Int); omega,
              fun hc => absurd hc (Option.some_ne_none _),
              by show (0:Int) ≤ ov; omega,
              fun hc => absurd hc (Option.some_ne_none _),
              by show (0:Int) < gv; omega⟩
  · intro db sid s gi li oi
    simp only [step]
    cases parseGetChatHistory gi li oi <;> rfl
  · intro db sid s gi li oi p h
    exact ⟨by simp [step, h], List.length_take_le _ _⟩

/-- Witness for C8 at a concrete accepted request and a concrete state. -/
theorem C8_history_limit_bounds_witness :
    (1 ≤ (⟨3, 20, 0⟩ : GetHistParams).limit ∧ (⟨3, 20, 0⟩ : GetHistParams).limit ≤ 100 ∧
      ((none : Option Int) = none → (⟨3, 20, 0⟩ : GetHistParams).limit = 20) ∧
      0 ≤ (⟨3, 20, 0⟩ : GetHistParams).offset ∧
      ((none : Option Int) = none → (⟨3, 20, 0⟩ : GetHistParams).offset = 0) ∧
      0 < (⟨3, 20, 0⟩ : GetHistParams).goalId) ∧
    (step [] "sess" initState (.histReq (some 3) none none)).1 = initState ∧
    (step [] "sess" initState (.histReq (some 3) none none) =
      (initState,
       [.history (((findBySessionId [] "sess").drop (0 : Int).toNat).take (20 : Int).toNat)
          (hasMoreFlag (findBySessionId [] "sess") (20 : Int).toNat (0 : Int).toNat)]) ∧
     (((findBySessionId [] "sess").drop (0 : Int).toNat).take (20 : Int).toNat).length ≤
       (20 : Int).toNat) :=
  ⟨C8_history_limit_bounds.1 (some 3) none none ⟨3, 20, 0⟩ rfl,
   C8_history_limit_bounds.2.1 [] "sess" initState (some 3) none none,
   C8_history_limit_bounds.2.2 [] "sess" initState (some 3) none none ⟨3, 20, 0⟩ rfl⟩

/-! ## Claim C9 -/

/-- Claim C9: `findBySessionId` returns messages in non-decreasing
`created_at` order (`ORDER BY created_at ASC`), and the `hasMore` flag is
true iff more than `limit` rows exist beyond `offset`. -/
theorem C9_history_ordered_hasMore :
    (∀ (table : List DbRow) (sid : String),
      (findBySessionId table sid).Pairwise (fun a b => a.created_at ≤ b.created_at)) ∧
    (∀ (rows : List DbRow) (limit offset : Nat),
      hasMoreFlag rows limit offset = true ↔ offset + limit < rows.length) := by
  constructor
  · intro table sid
    have h := @List.sorted_mergeSort DbRow
      (fun a b => Nat.ble a.created_at b.created_at)
      (fun a b c hab hbc => by
        simp only [Nat.ble_eq] at hab hbc ⊢
        omega)
      (fun a b => by
        simp only [Bool.or_eq_true, Nat.ble_eq]
        omega)
      (table.filter (fun r => r.session_id == sid))
    rw [findBySessionId]
    exact h.imp (fun hab => by simpa [Nat.ble_eq] using hab)
  · intro rows limit offset
    simp [hasMoreFlag]

/-! ## Helper lemmas about the Connection Session machine -/

theorem step_rid_le (db : List DbRow) (sid : String) (s : SState) (i : SIn) :
    s.rid ≤ (step db sid s i).1.rid := by
  cases i <;> simp only [step] <;>
    (repeat' split) <;> simp

theorem step_chunk_rid (db : List DbRow) (sid : String) (s : SState) (i : SIn) :
    ∀ r ∈ chunkRids (step db sid s i).2, r = s.rid := by
  cases i <;> simp only [step] <;>
    (repeat' split) <;> simp [chunkRids]

theorem pairwise_le_of_all_eq (L : List Nat) (c : Nat) (h : ∀ x ∈ L, x = c) :
    L.Pairwise (· ≤ ·) := by
  induction L with
  | nil => exact List.Pairwise.nil
  | cons a t ih =>
    refine List.Pairwise.cons ?_ (ih fun x hx => h x (List.mem_cons_of_mem _ hx))
    intro b hb
    rw [h a (List.mem_cons_self _ _), h b (List.mem_cons_of_mem _ hb)]

theorem run_chunk_rid_ge (db : List DbRow) (sid : String) :
    ∀ (l : List SIn) (s : SState), ∀ r ∈ chunkRids (run db sid s l).2, s.rid ≤ r := by
  intro l
  induction l with
  | nil => intro s r hr; simp [run, chunkRids] at hr
  | cons i t ih =>
    intro s r hr
    simp only [run, chunkRids, List.filterMap_append, List.mem_append] at hr
    rcases hr with hr | hr
    · exact le_of_eq (step_chunk_rid db sid s i r hr).symm
    · exact le_trans (step_rid_le db sid s i)
        (ih (step db sid s i).1 r (by simpa [chunkRids] using hr))

theorem run_chunkRids_pairwise (db : List DbRow) (sid : String) :
    ∀ (l : List SIn) (s : SState),
      (chunkRids (run db sid s l).2).Pairwise (· ≤ ·) := by
  intro l
  induction l with
  | nil => intro s; simp [run, chunkRids]
  | cons i t ih =>
    intro s
    simp only [run, chunkRids, List.filterMap_append]
    rw [List.pairwise_append]
    refine ⟨pairwise_le_of_all_eq _ s.rid (step_chunk_rid db sid s i), ?_, ?_⟩
    · simpa [chunkRids] using ih (step db sid s i).1
    · intro a ha b hb
      rw [step_chunk_rid db sid s i a ha]
      exact le_trans (step_rid_le db sid s i)
        (run_chunk_rid_ge db sid t (step db sid s i).1 b (by simpa [chunkRids] using hb))

/-! ## Claim C2 -/

/-- Claim C2: at most one streaming sequence is active per connection: a
`chat_message` arriving in `GENERATING` is deterministically rejected
(leaving the active stream untouched), and in every run the ghost response
ids of the emitted chunks are non-decreasing — no chunk of a later response
is ever interleaved with chunks of an earlier one. -/
theorem C2_single_stream :
    (∀ (db : List DbRow) (sid : String) (l : List SIn),
      (chunkRids (run db sid initState l).2).Pairwise (· ≤ ·)) ∧
    (∀ (db : List DbRow) (sid : String) (s : SState) (t : String),
      s.phase = .generating →
      step db sid s (.userMsg t) =
        (s, [.errorEv "A response is already being generated"])) := by
  constructor
  · intro db sid l
    exact run_chunkRids_pairwise db sid l initState
  · intro db sid s t h
    simp [step, h]

/-- Witness for C2 at a concrete run and a concrete `GENERATING` state. -/
theorem C2_single_stream_witness :
    (chunkRids (run [] "sess" initState [.userMsg "q", .genOk "ans", .tick, .tick]).2).Pairwise
      (· ≤ ·) ∧
    step [] "sess" ⟨.generating, true, ["x"], "x", 1, ["q"], []⟩ (.userMsg "again") =
      (⟨.generating, true, ["x"], "x", 1, ["q"], []⟩,
       [.errorEv "A response is already being generated"]) :=
  ⟨C2_single_stream.1 [] "sess" [.userMsg "q", .genOk "ans", .tick, .tick],
   C2_single_stream.2 [] "sess" ⟨.generating, true, ["x"], "x", 1, ["q"], []⟩ "again" rfl⟩

/-! ## The canonical completed-generation run -/

theorem run_drain (db : List DbRow) (sid : String) (g : String) (r : Nat)
    (uLog aLog : List String) :
    ∀ (cs : List String),
      run db sid ⟨.generating, true, cs, g, r, uLog, aLog⟩
        (List.replicate cs.length .tick ++ [.tick]) =
      (⟨.ready, false, [], "", r, uLog, aLog ++ [g]⟩,
        cs.map (fun c => .chunk c false r) ++ [.chunk "" true r, .aiTyping false]) := by
  intro cs
  induction cs with
  | nil => simp [run, step]
  | cons c rest ih =>
    simp only [List.length_cons, List.replicate_succ, List.cons_append, run, step,
      if_true, List.append_eq]
    rw [ih]
    simp

theorem run_script_eq (db : List DbRow) (sid : String) (t g : String) :
    run db sid initState (script t g) =
      (⟨.ready, false, [], "", 1, [t], [g]⟩, canonicalOutput t g) := by
  have h1 : step db sid initState (.userMsg t) =
      (⟨.generating, false, [], "", 1, [t], []⟩, [.echo t]) := by
    simp [step, initState]
  have h2 : step db sid ⟨.generating, false, [], "", 1, [t], []⟩ (.genOk g) =
      (⟨.generating, true, splitIntoChunks g, g, 1, [t], []⟩, [.aiTyping true]) := by
    simp [step]
  simp only [script, List.cons_append, run, h1, h2, List.append_eq, List.nil_append]
  rw [run_drain db sid g 1 [t] [] (splitIntoChunks g)]
  simp [canonicalOutput]

/-! ## Claim C3 -/

/-- Claim C3: a `chat_message` handled in `READY` produces exactly the
outbound sequence: the `chat_message` echo, then `ai_typing(true)` once,
then the incomplete chunks in order (at least one, since the generated text
is nonempty), then exactly one complete chunk, then `ai_typing(false)`; the
full text is persisted as the assistant message. -/
theorem C3_event_sequence (db : List DbRow) (sid : String) (t g : String)
    (hg : g ≠ "") :
    run db sid initState (script t g) =
      (⟨.ready, false, [], "", 1, [t], [g]⟩, canonicalOutput t g) ∧
    canonicalOutput t g =
      [.echo t, .aiTyping true] ++
      (splitIntoChunks g).map (fun c => .chunk c false 1) ++
      [.chunk "" true 1, .aiTyping false] ∧
    1 ≤ ((canonicalOutput t g).countP (fun o => isIncompleteChunk o)) ∧
    ((canonicalOutput t g).countP (fun o => isTypingOn o)) = 1 ∧
    ((canonicalOutput t g).countP (fun o => isCompleteChunk o)) = 1 := by
  have hlen := splitIntoChunks_length_pos hg
  refine ⟨run_script_eq db sid t g, rfl, ?_, ?_, ?_⟩
  · simp only [canonicalOutput, List.countP_append, List.countP_cons, List.countP_nil,
      List.countP_map, isIncompleteChunk, isTypingOn, isCompleteChunk]
    simp [Function.comp_def, List.countP_true]
    omega
  · simp [canonicalOutput, List.countP_append, List.countP_cons, List.countP_map,
      isTypingOn, Function.comp_def]
  · simp [canonicalOutput, List.countP_append, List.countP_cons, List.countP_map,
      isCompleteChunk, Function.comp_def]

/-- Witness for C3 at a concrete message and generated text. -/
theorem C3_event_sequence_witness :
    run [] "sess" initState (script "Explain gradient descent" "Sure!") =
      (⟨.ready, false, [], "", 1, ["Explain gradient descent"], ["Sure!"]⟩,
       canonicalOutput "Explain gradient descent" "Sure!") ∧
    1 ≤ ((canonicalOutput "Explain gradient descent" "Sure!").countP
      (fun o => isIncompleteChunk o)) :=
  ⟨(C3_event_sequence [] "sess" "Explain gradient descent" "Sure!" (by decide)).1,
   (C3_event_sequence [] "sess" "Explain gradient descent" "Sure!" (by decide)).2.2.1⟩

/-! ## Claim C4 -/

/-- Claim C4: if the Response Generator throws while the connection is
`GENERATING`, exactly one error event is emitted, `ai_typing(false)` is
emitted if `ai_typing(true)` had been, no assistant message is persisted for
the generation, and the connection returns to `READY`. -/
theorem C4_generator_error (db : List DbRow) (sid : String) (s : SState) (m : String)
    (hphase : s.phase = .generating)
    (apiKey : Option String) (u gc : String) (hist : List HistMsg)
    (ms : Option String) (callModel : String → Except String String)
    (hgen : generateTutorResponse apiKey u gc hist ms callModel = .error m) :
    step db sid s (.genErr m) =
      ({ s with phase := .ready, started := false, pending := [], gen := "" },
       [.errorEv m] ++ (if s.started then [.aiTyping false] else [])) ∧
    countErrors (step db sid s (.genErr m)).2 = 1 ∧
    (s.started = true → .aiTyping false ∈ (step db sid s (.genErr m)).2) ∧
    (step db sid s (.genErr m)).1.aiLog = s.aiLog ∧
    (step db sid s (.genErr m)).1.phase = .ready := by
  have hstep : step db sid s (.genErr m) =
      ({ s with phase := .ready, started := false, pending := [], gen := "" },
       [.errorEv m] ++ (if s.started then [.aiTyping false] else [])) := by
    simp [step, hphase]
  refine ⟨hstep, ?_, ?_, ?_, ?_⟩
  · rw [hstep]
    cases hs : s.started <;> simp [countErrors]
  · intro hs
    rw [hstep]
    simp [hs]
  · rw [hstep]
  · rw [hstep]

/-- Witness for C4: the generator model fails when the API key is missing
(`src/lib/gemini.ts` line 195-197), at a concrete `GENERATING` state. -/
theorem C4_generator_error_witness :
    step [] "sess" ⟨.generating, true, [], "", 1, ["q"], []⟩
        (.genErr "Gemini API key is not configured") =
      (⟨.ready, false, [], "", 1, ["q"], []⟩,
       [.errorEv "Gemini API key is not configured", .aiTyping false]) ∧
    countErrors (step [] "sess" ⟨.generating, true, [], "", 1, ["q"], []⟩
        (.genErr "Gemini API key is not configured")).2 = 1 ∧
    (step [] "sess" ⟨.generating, true, [], "", 1, ["q"], []⟩
        (.genErr "Gemini API key is not configured")).1.aiLog = [] := by
  have h := C4_generator_error [] "sess" ⟨.generating, true, [], "", 1, ["q"], []⟩
    "Gemini API key is not configured" rfl none "q" "goal" [] none
    (fun _ => .error "network") rfl
  exact ⟨h.1, h.2.1, h.2.2.2.1⟩

/-! ## Claim C5 -/

/-- Claim C5: connection attempts failing authentication are closed with
exactly one `Unauthorized` error event, accept no messages and persist
nothing; successful attempts yield a registered session whose initial state
is `READY` with empty logs — `READY` is reached before any message is
accepted. -/
theorem C5_auth_gate :
    (∀ sec vres db, authenticateSocket sec vres db = none →
      onConnect (authenticateSocket sec vres db) = .closed [.errorEv "Unauthorized"] ∧
      countErrors (closedEvents (onConnect (authenticateSocket sec vres db))) = 1 ∧
      acceptsMessages (onConnect (authenticateSocket sec vres db)) = false ∧
      persistedOf (onConnect (authenticateSocket sec vres db)) = ([], [])) ∧
    (∀ sec vres db u, authenticateSocket sec vres db = some u →
      onConnect (authenticateSocket sec vres db) = .ready initState u ∧
      initState.phase = .ready ∧
      acceptsMessages (onConnect (authenticateSocket sec vres db)) = true ∧
      persistedOf (onConnect (authenticateSocket sec vres db)) = ([], [])) := by
  constructor
  · intro sec vres db h
    rw [h]
    exact ⟨rfl, rfl, rfl, rfl⟩
  · intro sec vres db u h
    rw [h]
    exact ⟨rfl, rfl, rfl, rfl⟩

/-- Witness for C5: a missing-secret connection attempt is rejected; a valid
token with an existing user reaches `READY`. -/
theorem C5_auth_gate_witness :
    onConnect (authenticateSocket none (.error "no token") (fun _ => none)) =
      .closed [.errorEv "Unauthorized"] ∧
    onConnect (authenticateSocket (some "secret") (.ok ⟨some 1, some "a@b.c", none⟩)
        (fun i => if i = 1 then some ⟨1, "a@b.c", none⟩ else none)) =
      .ready initState ⟨1, "a@b.c", none⟩ :=
  ⟨(C5_auth_gate.1 none (.error "no token") (fun _ => none) rfl).1,
   (C5_auth_gate.2 (some "secret") (.ok ⟨some 1, some "a@b.c", none⟩)
      (fun i => if i = 1 then some ⟨1, "a@b.c", none⟩ else none)
      ⟨1, "a@b.c", none⟩ (by decide)).1⟩

/-! ## Helper lemmas about client-side reassembly -/

theorem clientChunk_start (goalId : Option Int) (now finalId : String)
    (prev : List CMsg) (c : String) (hprev : noTrailingStream prev = true) :
    clientChunk goalId now finalId prev c false =
      prev ++ [⟨"streaming", c, .ai, now, goalId⟩] := by
  rw [clientChunk]
  simp only [Bool.not_false, if_true]
  cases hl : prev.getLast? with
  | none => simp
  | some m =>
    rw [noTrailingStream, hl] at hprev
    have hcond : ¬(m.sender = Sender.ai ∧ m.id = "streaming") := by
      intro hcon
      simp [hcon.1, hcon.2] at hprev
    simp [hcond]

theorem clientRun_append_stream (goalId : Option Int) (now finalId : String)
    (pre : List CMsg) :
    ∀ (cs : List String) (m : CMsg),
      m.sender = .ai → m.id = "streaming" →
      clientRun goalId now finalId (pre ++ [m]) (cs.map (fun c => (c, false))) =
        pre ++ [{ m with message := m.message ++ concatChunks cs }] := by
  intro cs
  induction cs with
  | nil =>
    intro m _ _
    simp [clientRun, concatChunks]
  | cons c rest ih =>
    intro m hsender hid
    simp only [List.map_cons, clientRun, List.foldl_cons]
    have hstep : clientChunk goalId now finalId (pre ++ [m]) c false =
        pre ++ [{ m with message := m.message ++ c }] := by
      rw [clientChunk]
      simp only [Bool.not_false, if_true, List.getLast?_concat]
      rw [if_pos ⟨hsender, hid⟩, List.dropLast_concat]
    rw [hstep]
    have ihm := ih { m with message := m.message ++ c } hsender hid
    rw [clientRun] at ihm
    rw [ihm]
    simp only [concatChunks]
    rw [String.append_assoc]

theorem clientChunk_finalize (goalId : Option Int) (now finalId : String)
    (pre : List CMsg) (m : CMsg) (hid : m.id = "streaming") :
    clientChunk goalId now finalId (pre ++ [m]) "" true =
      pre ++ [{ m with id := finalId, message := m.message }] := by
  rw [clientChunk]
  simp only [Bool.not_true, Bool.false_eq_true, if_false, List.getLast?_concat]
  rw [if_pos hid, List.dropLast_concat, String.append_empty]

/-! ## Claim C1 -/

/-- Claim C1: for a completed generation of nonempty text `g`, the
concatenation of the emitted chunk contents (including the final complete
chunk's empty content) is exactly `g`, the assistant message persisted by
the machine is exactly `g`, and the client-side reassembly appends one
finalized message whose content is exactly `g`. -/
theorem C1_chunk_roundtrip (g : String) (hg : g ≠ "") (t : String)
    (db : List DbRow) (sid : String) (prev : List CMsg)
    (hprev : noTrailingStream prev = true) (goalId : Option Int) (now finalId : String) :
    concatChunks (splitIntoChunks g) = g ∧
    concatChunks ((splitIntoChunks g).map id ++ [""]) = g ∧
    (run db sid initState (script t g)).1.aiLog = [g] ∧
    clientRun goalId now finalId prev (chunkEvents g) =
      prev ++ [⟨finalId, g, .ai, now, goalId⟩] := by
  have hconcat := splitIntoChunks_concat g
  have hlen := splitIntoChunks_length_pos hg
  refine ⟨hconcat, ?_, ?_, ?_⟩
  · have : ∀ (l : List String), concatChunks (l ++ [""]) = concatChunks l := by
      intro l
      induction l with
      | nil => rfl
      | cons a t ih => rw [List.cons_append, concatChunks, ih, concatChunks]
    rw [List.map_id, this, hconcat]
  · rw [run_script_eq]
  · match hs : splitIntoChunks g with
    | [] => rw [hs] at hlen; simp at hlen
    | c0 :: cs =>
      have h1 : clientChunk goalId now finalId prev c0 false =
          prev ++ [⟨"streaming", c0, .ai, now, goalId⟩] :=
        clientChunk_start goalId now finalId prev c0 hprev
      have h2 : clientRun goalId now finalId
          (prev ++ [⟨"streaming", c0, .ai, now, goalId⟩])
          (cs.map (fun c => (c, false))) =
          prev ++ [⟨"streaming", c0 ++ concatChunks cs, .ai, now, goalId⟩] :=
        clientRun_append_stream goalId now finalId prev cs
          ⟨"streaming", c0, .ai, now, goalId⟩ rfl rfl
      have h3 : clientChunk goalId now finalId
          (prev ++ [⟨"streaming", c0 ++ concatChunks cs, .ai, now, goalId⟩]) "" true =
          prev ++ [⟨finalId, c0 ++ concatChunks cs, .ai, now, goalId⟩] :=
        clientChunk_finalize goalId now finalId prev
          ⟨"streaming", c0 ++ concatChunks cs, .ai, now, goalId⟩ rfl
      have hmsg : c0 ++ concatChunks cs = g := by
        rw [← hconcat, hs, concatChunks]
      rw [chunkEvents, hs]
      rw [clientRun, List.map_cons, List.cons_append, List.foldl_cons, List.foldl_append]
      dsimp only
      rw [h1]
      rw [clientRun] at h2
      rw [h2, List.foldl_cons, List.foldl_nil]
      dsimp only
      rw [h3, hmsg]

/-- Witness for C1 at a concrete generated text and empty prior client
state. -/
theorem C1_chunk_roundtrip_witness :
    concatChunks (splitIntoChunks "Sure!") = "Sure!" ∧
    clientRun (some 1) "ts" "42" [] (chunkEvents "Sure!") =
      [⟨"42", "Sure!", .ai, "ts", some 1⟩] :=
  ⟨(C1_chunk_roundtrip "Sure!" (by decide) "q" [] "sess" [] rfl (some 1) "ts" "42").1,
   (C1_chunk_roundtrip "Sure!" (by decide) "q" [] "sess" [] rfl (some 1) "ts" "42").2.2.2⟩

end AiTutor
